import Mathlib

/-!
Verification development for the MiniCloud AI recovery core
(`minicloud_ai_recovery.py`).

Shallow embedding conventions:
* Python floats (metric percentages, latencies, durations, success rates)
  are modelled as exact rationals `ℚ`.
* `datetime` values are modelled as integer second counts `ℤ`; a
  `timedelta`'s `.seconds` attribute is `(elapsed) % 86400` with
  floor-modulus semantics, which matches Python's normalisation of
  timedeltas into days plus a sub-day seconds component.
* The sqlite `recovery_history` table is modelled as an append-only list of
  `HistoryEntry`; the `patterns` table as an association list keyed by the
  (injective) pre-image of the md5 pattern digest.
* Remote I/O (ssh transport, handler bodies, the metrics collector, the
  issue-id hash of the current timestamp) is abstracted as oracle
  parameters; all decision logic is translated from the source.
-/

namespace MiniCloud

/-- Recovery action types (`RecoveryAction` enum in the source). -/
inductive RecoveryAction where
  | restart_service
  | reboot_server
  | clear_cache
  | restart_container
  | network_reset
  | disk_cleanup
  | process_kill
  | config_repair
  | manual_intervention
deriving DecidableEq, Repr

/-- The string payload of each enum member (`RecoveryAction.value`). -/
def RecoveryAction.value : RecoveryAction → String
  | .restart_service => "restart_service"
  | .reboot_server => "reboot_server"
  | .clear_cache => "clear_cache"
  | .restart_container => "restart_container"
  | .network_reset => "network_reset"
  | .disk_cleanup => "disk_cleanup"
  | .process_kill => "process_kill"
  | .config_repair => "config_repair"
  | .manual_intervention => "manual_intervention"

/-- Python `RecoveryAction(s)` lookup by value: `some` on a valid payload,
`none` where the constructor would raise `ValueError`. -/
def RecoveryAction.fromValue (s : String) : Option RecoveryAction :=
  if s = "restart_service" then some .restart_service
  else if s = "reboot_server" then some .reboot_server
  else if s = "clear_cache" then some .clear_cache
  else if s = "restart_container" then some .restart_container
  else if s = "network_reset" then some .network_reset
  else if s = "disk_cleanup" then some .disk_cleanup
  else if s = "process_kill" then some .process_kill
  else if s = "config_repair" then some .config_repair
  else if s = "manual_intervention" then some .manual_intervention
  else none

theorem RecoveryAction.fromValue_value (a : RecoveryAction) :
    RecoveryAction.fromValue a.value = some a := by
  cases a <;> rfl

theorem RecoveryAction.value_of_fromValue {s : String} {a : RecoveryAction}
    (h : RecoveryAction.fromValue s = some a) : a.value = s := by
  unfold RecoveryAction.fromValue at h
  repeat' split at h
  all_goals (try (injection h with h2; subst h2))
  all_goals simp_all [RecoveryAction.value]

/-- Server health states (`ServerStatus` enum in the source). -/
inductive ServerStatus where
  | healthy
  | degraded
  | critical
  | offline
  | recovering
  | unknown
deriving DecidableEq, Repr

/-- System health snapshot (`HealthMetrics` dataclass). The `last_check`
wall-clock timestamp is environment data not consulted by any logic
modelled here and is omitted. -/
structure HealthMetrics where
  cpu_usage : ℚ := 0
  memory_usage : ℚ := 0
  disk_usage : ℚ := 0
  network_latency : ℚ := 0
  service_statuses : List (String × Bool) := []
  container_statuses : List (String × String) := []
  uptime_seconds : ℕ := 0
  error_count : ℕ := 0
  recovery_attempts : ℕ := 0
deriving DecidableEq, Repr

/-- Detected system issue (`Issue` dataclass). The `detected_at` timestamp
and the raw `metrics` context dict are carried along in the source but
only rendered into logs and the write-only patterns column; they are
omitted here. -/
structure Issue where
  issue_id : String
  severity : String
  component : String
  description : String
  suggested_actions : List RecoveryAction
  resolved : Bool := false
  resolution : Option String := none
deriving DecidableEq, Repr

/-- Configured thresholds after applying `dict.get` defaults
(`self.thresholds.get(key, default)` in the source). -/
structure Thresholds where
  cpu_warning : ℚ := 70
  cpu_critical : ℚ := 90
  memory_warning : ℚ := 80
  memory_critical : ℚ := 95
  disk_warning : ℚ := 80
  disk_critical : ℚ := 90
  network_latency_high : ℚ := 1000
deriving DecidableEq, Repr

/-- CPU branch of `DiagnosticEngine.analyze_metrics`: a critical issue
above the critical threshold, else (elif) a high issue above the warning
threshold. `genId` abstracts `_generate_issue_id` (md5 of type and
current timestamp). -/
def cpuIssues (th : Thresholds) (genId : String → String) (m : HealthMetrics) : List Issue :=
  if m.cpu_usage > th.cpu_critical then
    [{ issue_id := genId "cpu_critical"
     , severity := "critical"
     , component := "cpu"
     , description := "Critical CPU usage: " ++ toString m.cpu_usage ++ "%"
     , suggested_actions := [.process_kill, .restart_service, .reboot_server] }]
  else if m.cpu_usage > th.cpu_warning then
    [{ issue_id := genId "cpu_high"
     , severity := "high"
     , component := "cpu"
     , description := "High CPU usage: " ++ toString m.cpu_usage ++ "%"
     , suggested_actions := [.process_kill, .restart_service] }]
  else []

/-- Memory branch of `analyze_metrics`: critical tier only. -/
def memoryIssues (th : Thresholds) (genId : String → String) (m : HealthMetrics) : List Issue :=
  if m.memory_usage > th.memory_critical then
    [{ issue_id := genId "memory_critical"
     , severity := "critical"
     , component := "memory"
     , description := "Critical memory usage: " ++ toString m.memory_usage ++ "%"
     , suggested_actions := [.clear_cache, .restart_service, .reboot_server] }]
  else []

/-- Disk branch of `analyze_metrics`: critical tier only. -/
def diskIssues (th : Thresholds) (genId : String → String) (m : HealthMetrics) : List Issue :=
  if m.disk_usage > th.disk_critical then
    [{ issue_id := genId "disk_critical"
     , severity := "critical"
     , component := "disk"
     , description := "Critical disk usage: " ++ toString m.disk_usage ++ "%"
     , suggested_actions := [.disk_cleanup, .manual_intervention] }]
  else []

/-- One issue of the per-service loop of `analyze_metrics`. -/
def serviceIssue (genId : String → String) (service : String) : Issue :=
  { issue_id := genId ("service_down_" ++ service)
  , severity := "high"
  , component := "service:" ++ service
  , description := "Service " ++ service ++ " is down"
  , suggested_actions := [.restart_service, .restart_container] }

/-- Service branch of `analyze_metrics`: one issue per service whose
status boolean is false. -/
def serviceIssues (genId : String → String) (m : HealthMetrics) : List Issue :=
  (m.service_statuses.filter (fun p => !p.2)).map (fun p => serviceIssue genId p.1)

/-- One issue of the per-container loop of `analyze_metrics`. -/
def containerIssue (genId : String → String) (container status : String) : Issue :=
  { issue_id := genId ("container_unhealthy_" ++ container)
  , severity := if status = "unhealthy" then "medium" else "high"
  , component := "container:" ++ container
  , description := "Container " ++ container ++ " is " ++ status
  , suggested_actions := [.restart_container] }

/-- Container branch of `analyze_metrics`: one issue per container whose
status string is neither running nor healthy. -/
def containerIssues (genId : String → String) (m : HealthMetrics) : List Issue :=
  (m.container_statuses.filter (fun p => !(p.2 == "running" || p.2 == "healthy"))).map
    (fun p => containerIssue genId p.1 p.2)

/-- Network branch of `analyze_metrics`. -/
def networkIssues (th : Thresholds) (genId : String → String) (m : HealthMetrics) : List Issue :=
  if m.network_latency > th.network_latency_high then
    [{ issue_id := genId "network_latency"
     , severity := "medium"
     , component := "network"
     , description := "High network latency: " ++ toString m.network_latency ++ "ms"
     , suggested_actions := [.network_reset] }]
  else []

/-- `DiagnosticEngine.analyze_metrics`: the fixed-order concatenation of
the six threshold checks. In the source the call to
`_learn_from_patterns` happens as a database side effect inside this
method; here learning is the separate pure function
`learn_from_patterns`, applied alongside `analyze_metrics` by the
orchestration cycle. -/
def analyze_metrics (th : Thresholds) (genId : String → String) (m : HealthMetrics) : List Issue :=
  cpuIssues th genId m ++ memoryIssues th genId m ++ diskIssues th genId m ++
    serviceIssues genId m ++ containerIssues genId m ++ networkIssues th genId m

/-- Row of the `recovery_history` sqlite table. Note the first column is
named `issue_id` and is populated with the issue id passed to
`record_recovery_result`; the action column stores the enum payload
string. -/
structure HistoryEntry where
  issue_id : String
  action : String
  success : Bool
  duration_seconds : ℚ
deriving DecidableEq, Repr

/-- `DiagnosticEngine.record_recovery_result`: appends one row to the
`recovery_history` table. The wall-clock timestamp column is not
consulted by any query and is omitted. -/
def record_recovery_result (history : List HistoryEntry) (issue_id : String)
    (action : RecoveryAction) (success : Bool) (duration : ℚ) : List HistoryEntry :=
  history ++ [{ issue_id := issue_id, action := action.value, success := success
              , duration_seconds := duration }]

/-- Substring test over character lists (helper for `strContains`). -/
def listInfix (needle : List Char) : List Char → Bool
  | [] => needle.isEmpty
  | c :: cs => needle.isPrefixOf (c :: cs) || listInfix needle cs

/-- Sqlite `column LIKE '%needle%'`: substring containment. (LIKE is
additionally ASCII-case-insensitive; every component string the engine
ever builds is lower-case, so plain containment is the faithful model.) -/
def strContains (needle hay : String) : Bool :=
  listInfix needle.toList hay.toList

/-- The rows of `recovery_history` selected by the
`WHERE issue_id LIKE '%component%'` filter of `get_best_action`. -/
def matchingHistory (history : List HistoryEntry) (issue : Issue) : List HistoryEntry :=
  history.filter (fun e => strContains issue.component e.issue_id)

/-- `COUNT(*)` of a `GROUP BY action` group. -/
def attemptCount (l : List HistoryEntry) (a : String) : ℕ :=
  (l.filter (fun e => e.action == a)).length

/-- Number of successful rows in a `GROUP BY action` group. -/
def successCount (l : List HistoryEntry) (a : String) : ℕ :=
  (l.filter (fun e => e.action == a && e.success)).length

/-- `AVG(CASE WHEN success THEN 1.0 ELSE 0.0 END)` of a group:
successes / attempts, as an exact rational. -/
def successRate (l : List HistoryEntry) (a : String) : ℚ :=
  (successCount l a : ℚ) / (attemptCount l a : ℚ)

/-- The distinct action strings appearing in a row set — the groups of
`GROUP BY action`. -/
def candidateActions (l : List HistoryEntry) : List String :=
  (l.map (fun e => e.action)).dedup

/-- Strict comparison of (success_rate, attempts) pairs implementing
`ORDER BY success_rate DESC, attempts DESC`. -/
def betterKey (x y : ℚ × ℕ) : Bool :=
  if y.1 < x.1 then true
  else if x.1 = y.1 ∧ y.2 < x.2 then true
  else false

/-- Sort key of a group under `ORDER BY success_rate DESC, attempts DESC`. -/
def actionKey (l : List HistoryEntry) (a : String) : ℚ × ℕ :=
  (successRate l a, attemptCount l a)

/-- Selection of the maximal group (the `LIMIT 1` row): running maximum
over the groups. Sqlite does not specify the tie order among groups with
equal (rate, attempts); the model keeps the earlier candidate on ties. -/
def pickBest (l : List HistoryEntry) : String → List String → String
  | best, [] => best
  | best, b :: bs =>
      pickBest l (if betterKey (actionKey l b) (actionKey l best) then b else best) bs

/-- The action of the single row returned by the ranking query of
`get_best_action`, `none` when no history row matches. -/
def selectBest (l : List HistoryEntry) : Option String :=
  match candidateActions l with
  | [] => none
  | a :: rest => some (pickBest l a rest)

/-- `DiagnosticEngine.get_best_action`: rank matching history rows by
success rate; return the top action when its rate strictly exceeds 0.7
and its string is a valid enum payload (`RecoveryAction(...)` would
raise `ValueError` otherwise and the code falls through); otherwise fall
back to the first suggested action, or `none` when there is none. -/
def get_best_action (history : List HistoryEntry) (issue : Issue) : Option RecoveryAction :=
  let m := matchingHistory history issue
  match selectBest m with
  | some a =>
      if successRate m a > (7 : ℚ) / 10 then
        match RecoveryAction.fromValue a with
        | some act => some act
        | none => issue.suggested_actions.head?
      else issue.suggested_actions.head?
  | none => issue.suggested_actions.head?

/-- Python `int(q)`: truncation toward zero. -/
def pyTrunc (q : ℚ) : ℤ :=
  if 0 ≤ q then ⌊q⌋ else ⌈q⌉

/-- `int(x / 10) * 10`: the 10-unit bucket used by `_hash_pattern`. -/
def bucket10 (q : ℚ) : ℤ :=
  pyTrunc (q / 10) * 10

/-- Pre-image of the md5 pattern digest of `_hash_pattern`: the
`pattern_data` dict that is json-serialised (with sorted keys) and
hashed. The digest step is modelled by this key record itself — two
keys collide exactly when their `pattern_data` coincide. -/
structure PatternKey where
  component : String
  severity : String
  cpu_range : ℤ
  memory_range : ℤ
  disk_range : ℤ
deriving DecidableEq, Repr

/-- `DiagnosticEngine._hash_pattern`: buckets cpu, memory and disk usage
to 10-unit ranges; network latency and uptime are not part of the key. -/
def hash_pattern (issue : Issue) (m : HealthMetrics) : PatternKey :=
  { component := issue.component
  , severity := issue.severity
  , cpu_range := bucket10 m.cpu_usage
  , memory_range := bucket10 m.memory_usage
  , disk_range := bucket10 m.disk_usage }

/-- The `INSERT OR REPLACE` with
`COALESCE((SELECT occurrences WHERE pattern_hash = ?) + 1, 1)` of
`_learn_from_patterns`: increment the counter of an existing hash,
start a fresh row at 1 otherwise. -/
def upsertPattern : List (PatternKey × ℕ) → PatternKey → List (PatternKey × ℕ)
  | [], k => [(k, 1)]
  | (k2, n) :: rest, k =>
      if k2 = k then (k2, n + 1) :: rest else (k2, n) :: upsertPattern rest k

/-- `DiagnosticEngine._learn_from_patterns`: one upsert per issue of the
pass, keyed by the issue's pattern hash. -/
def learn_from_patterns (store : List (PatternKey × ℕ)) (issues : List Issue)
    (m : HealthMetrics) : List (PatternKey × ℕ) :=
  issues.foldl (fun s i => upsertPattern s (hash_pattern i m)) store

/-- Occurrence counter currently stored for a pattern key. -/
def patternCount (store : List (PatternKey × ℕ)) (k : PatternKey) : Option ℕ :=
  store.lookup k

/-- `MiniCloudMonitor._update_status`: severity-driven status, with the
error-counter override applied last. -/
def update_status (m : HealthMetrics) (issues : List Issue) : ServerStatus :=
  let s :=
    if issues.isEmpty then ServerStatus.healthy
    else if issues.any (fun i => i.severity == "critical") then ServerStatus.critical
    else if issues.any (fun i => i.severity == "high") then ServerStatus.degraded
    else ServerStatus.degraded
  if m.error_count > 5 then ServerStatus.offline else s

/-- Monitoring configuration consumed by the orchestration loop
(`config['monitoring']`, plus the diagnostic thresholds). -/
structure MonitorConfig where
  thresholds : Thresholds := {}
  check_interval : ℚ := 30
  recovery_cooldown : ℤ := 300
  max_recovery_attempts : ℕ := 3

/-- Mutable state owned by `MiniCloudMonitor`, together with the two
persisted learning-store tables the engine reads and writes. The
`active_issues` dict of the source is written by no code path and is
omitted. -/
structure MonitorState where
  current_status : ServerStatus
  recovery_in_progress : Bool
  last_recovery_time : Option ℤ
  history : List HistoryEntry
  patterns : List (PatternKey × ℕ)

/-- Outcome oracle for `RecoveryExecutor.execute_action` as observed by
the orchestrator: the remote world maps an action and its context dict
to a (success, message) pair. -/
abbrev ExecOracle : Type :=
  RecoveryAction → List (String × String) → Bool × String

/-- One recorded executor invocation: the action dispatched and the
context it was given. -/
abbrev ExecCall : Type :=
  RecoveryAction × List (String × String)

/-- `['low', 'medium', 'high', 'critical'].index(severity)`. Python
raises `ValueError` on any other string; every issue the engine builds
carries one of the four literals, and the model ranks anything else 0. -/
def severityRank (s : String) : ℕ :=
  if s = "low" then 0
  else if s = "medium" then 1
  else if s = "high" then 2
  else if s = "critical" then 3
  else 0

/-- `sorted(issues, key=severity index, reverse=True)`: stable sort,
descending by severity rank. -/
def sortIssues (issues : List Issue) : List Issue :=
  issues.mergeSort (fun a b => severityRank b.severity ≤ severityRank a.severity)

/-- Split a string at its first colon (`component.split(':', 1)`),
`none` when it has no colon. -/
def splitFirst (sep : Char) : List Char → Option (List Char × List Char)
  | [] => none
  | c :: cs =>
      if c = sep then some ([], cs)
      else (splitFirst sep cs).map (fun p => (c :: p.1, p.2))

/-- Context dict built by `_handle_issues` before executing an action:
always the component, plus the (kind, name) binding when the component
is colon-structured. -/
def buildContext (component : String) : List (String × String) :=
  match splitFirst ':' component.toList with
  | some p => [("component", component), (String.mk p.1, String.mk p.2)]
  | none => [("component", component)]

/-- Body of the per-issue loop of `_handle_issues`, folded over the top
three issues: consult `get_best_action` against the history recorded so
far, execute, and append the outcome row. The wall-clock duration
measured around the await is environment data and recorded as 0. The
`issue.resolved` mark on success feeds only the success notification and
is not part of the orchestration state. -/
def handleOneIssue (exec : ExecOracle) (acc : List HistoryEntry × List ExecCall)
    (issue : Issue) : List HistoryEntry × List ExecCall :=
  match get_best_action acc.1 issue with
  | some action =>
      let ctx := buildContext issue.component
      let r := exec action ctx
      (record_recovery_result acc.1 issue.issue_id action r.1 0, acc.2 ++ [(action, ctx)])
  | none => acc

/-- Recovery phase proper of `_handle_issues` (after the cooldown gate):
set the in-flight flag and recovering status, process the three most
severe issues, then clear the flag and stamp the recovery time. -/
def runRecoveryPhase (exec : ExecOracle) (now : ℤ) (st : MonitorState)
    (issues : List Issue) : MonitorState × List ExecCall :=
  let folded := ((sortIssues issues).take 3).foldl (handleOneIssue exec) (st.history, [])
  ({ st with current_status := ServerStatus.recovering
           , recovery_in_progress := false
           , last_recovery_time := some now
           , history := folded.1 }
  , folded.2)

/-- `MiniCloudMonitor._handle_issues`: skip everything when the sub-day
seconds component of the time since the last recovery phase is below the
cooldown (`(datetime.now() - last).seconds < cooldown`); otherwise run
the recovery phase. A `None` last-recovery time is falsy and bypasses
the gate. -/
def handle_issues (cfg : MonitorConfig) (exec : ExecOracle) (now : ℤ)
    (st : MonitorState) (issues : List Issue) : MonitorState × List ExecCall :=
  match st.last_recovery_time with
  | some t =>
      if (now - t) % 86400 < cfg.recovery_cooldown then (st, [])
      else runRecoveryPhase exec now st issues
  | none => runRecoveryPhase exec now st issues

/-- Environment inputs of one iteration of `MiniCloudMonitor.start`: the
current wall clock, the collected snapshot, the issue-id generator and
the executor outcome oracle. -/
structure CycleInput where
  now : ℤ
  metrics : HealthMetrics
  genId : String → String
  exec : ExecOracle

/-- One iteration of the `MiniCloudMonitor.start` loop: diagnose (with
its pattern-learning side effect), transition status, then enter
`_handle_issues` only when issues exist and no recovery is in flight.
Widget publishing and notification sends are one-way external calls and
are not part of the state. -/
def monitor_cycle (cfg : MonitorConfig) (inp : CycleInput) (st : MonitorState) :
    MonitorState × List ExecCall :=
  let issues := analyze_metrics cfg.thresholds inp.genId inp.metrics
  let st1 := { st with patterns := learn_from_patterns st.patterns issues inp.metrics
                     , current_status := update_status inp.metrics issues }
  if !issues.isEmpty && !st1.recovery_in_progress then
    handle_issues cfg inp.exec inp.now st1 issues
  else (st1, [])

/-- Orchestrator state at process start (`MiniCloudMonitor.__init__`),
over whatever learning-store contents survived from earlier runs. -/
def initialState (history : List HistoryEntry) (patterns : List (PatternKey × ℕ)) :
    MonitorState :=
  { current_status := ServerStatus.unknown
  , recovery_in_progress := false
  , last_recovery_time := none
  , history := history
  , patterns := patterns }

/-- The monitoring loop run over a finite sequence of cycle inputs. -/
def runMonitor (cfg : MonitorConfig) (history : List HistoryEntry)
    (patterns : List (PatternKey × ℕ)) (inputs : List CycleInput) : MonitorState :=
  inputs.foldl (fun st inp => (monitor_cycle cfg inp st).1) (initialState history patterns)

/-- Handler oracle for `RecoveryExecutor.execute_action`: the body of
each dispatched handler (ssh transport included) either returns a
(success, message) pair or raises, modelled as `Except` with the
exception text. -/
structure HandlerOracle where
  restartService : String → Except String (Bool × String)
  restartContainer : String → Except String (Bool × String)
  rebootServer : Except String (Bool × String)
  clearCache : Except String (Bool × String)
  diskCleanup : Except String (Bool × String)
  networkReset : Except String (Bool × String)
  killHighCpuProcesses : Except String (Bool × String)
  repairConfig : List (String × String) → Except String (Bool × String)

/-- Python `context.get(key, '')`. -/
def ctxGet (ctx : List (String × String)) (key : String) : String :=
  (ctx.lookup key).getD ""

/-- The if/elif dispatch chain of `execute_action`: `some` handler
invocation for the eight supported actions, `none` for the final else
branch (reached only by `manual_intervention`). -/
def dispatch (h : HandlerOracle) (action : RecoveryAction)
    (context : List (String × String)) : Option (Except String (Bool × String)) :=
  match action with
  | .restart_service => some (h.restartService (ctxGet context "service"))
  | .restart_container => some (h.restartContainer (ctxGet context "container"))
  | .reboot_server => some h.rebootServer
  | .clear_cache => some h.clearCache
  | .disk_cleanup => some h.diskCleanup
  | .network_reset => some h.networkReset
  | .process_kill => some h.killHighCpuProcesses
  | .config_repair => some (h.repairConfig context)
  | .manual_intervention => none

/-- `RecoveryExecutor.execute_action`: dispatch to a handler, return its
result; the unknown-action branch returns failure with a message, and
the surrounding try/except converts a raised exception into a
(False, text) result. -/
def execute_action (h : HandlerOracle) (action : RecoveryAction)
    (context : List (String × String)) : Bool × String :=
  match dispatch h action context with
  | none => (false, "Unknown action: " ++ action.value)
  | some (.ok r) => r
  | some (.error e) => (false, e)

theorem betterKey_true_le {x y : ℚ × ℕ} (h : betterKey x y = true) : y.1 ≤ x.1 := by
  unfold betterKey at h
  split at h
  case isTrue hlt => exact hlt.le
  case isFalse =>
    split at h
    case isTrue hand => exact hand.1.ge
    case isFalse => cases h

theorem betterKey_false_le {x y : ℚ × ℕ} (h : betterKey x y = false) : x.1 ≤ y.1 := by
  unfold betterKey at h
  split at h
  case isTrue => cases h
  case isFalse hnlt => exact le_of_not_lt hnlt

theorem pickBest_mem (l : List HistoryEntry) :
    ∀ (rest : List String) (best : String),
      pickBest l best rest = best ∨ pickBest l best rest ∈ rest := by
  intro rest
  induction rest with
  | nil => intro best; left; rfl
  | cons b bs ih =>
      intro best
      simp only [pickBest]
      split
      · rcases ih b with h | h
        · right; rw [h]; exact List.mem_cons_self b bs
        · right; exact List.mem_cons_of_mem b h
      · rcases ih best with h | h
        · left; exact h
        · right; exact List.mem_cons_of_mem b h

theorem successRate_pickBest_ge (l : List HistoryEntry) :
    ∀ (rest : List String) (best : String),
      successRate l best ≤ successRate l (pickBest l best rest) := by
  intro rest
  induction rest with
  | nil => intro best; exact le_refl _
  | cons b bs ih =>
      intro best
      simp only [pickBest]
      split
      case isTrue hbk =>
        exact le_trans (betterKey_true_le hbk) (ih b)
      case isFalse => exact ih best

theorem successRate_le_pickBest (l : List HistoryEntry) :
    ∀ (rest : List String) (best a : String), a ∈ rest →
      successRate l a ≤ successRate l (pickBest l best rest) := by
  intro rest
  induction rest with
  | nil => intro best a ha; cases ha
  | cons b bs ih =>
      intro best a ha
      simp only [pickBest]
      rcases List.mem_cons.mp ha with h | h
      · subst h
        split
        case isTrue => exact successRate_pickBest_ge l bs a
        case isFalse hbk =>
          exact le_trans (betterKey_false_le (Bool.eq_false_iff.mpr hbk))
            (successRate_pickBest_ge l bs best)
      · split
        · exact ih b a h
        · exact ih best a h

theorem mem_candidateActions {l : List HistoryEntry} {a : String} :
    a ∈ candidateActions l ↔ ∃ e ∈ l, e.action = a := by
  simp [candidateActions, List.mem_dedup, List.mem_map]

theorem selectBest_mem {l : List HistoryEntry} {b : String}
    (h : selectBest l = some b) : b ∈ candidateActions l := by
  unfold selectBest at h
  generalize hc : candidateActions l = ca at h ⊢
  cases ca with
  | nil => cases h
  | cons a rest =>
      simp only [Option.some.injEq] at h
      subst h
      rcases pickBest_mem l rest a with h2 | h2
      · rw [h2]; exact List.mem_cons_self a rest
      · exact List.mem_cons_of_mem a h2

theorem selectBest_max {l : List HistoryEntry} {b : String}
    (h : selectBest l = some b) :
    ∀ a ∈ candidateActions l, successRate l a ≤ successRate l b := by
  unfold selectBest at h
  generalize hc : candidateActions l = ca at h ⊢
  cases ca with
  | nil => intro a ha; cases ha
  | cons a0 rest =>
      simp only [Option.some.injEq] at h
      subst h
      intro a ha
      rcases List.mem_cons.mp ha with h2 | h2
      · subst h2; exact successRate_pickBest_ge l rest a
      · exact successRate_le_pickBest l rest a0 a h2

/-- C1: `get_best_action` filters the recovery history to the rows whose
stored identifier contains the issue's component as a substring, groups
them by action and computes each group's success rate; whenever the
top-ranked group's rate strictly exceeds 0.70 it returns that action
(which is rate-maximal among the groups); whenever every group's rate is
at most 0.70 — in particular when no row matches — it returns the first
entry of the issue's candidate-action list, `none` if that list is
empty; and every returned action is either that fallback or a
rate-maximal action with rate strictly above 0.70. The hypothesis that
every stored action string is a valid enum payload holds of every table
reachable through `record_recovery_result`, the table's only writer. -/
theorem bestAction_threshold_spec (history : List HistoryEntry) (issue : Issue)
    (hvalid : ∀ e ∈ history, (RecoveryAction.fromValue e.action).isSome = true) :
    ((∀ a ∈ candidateActions (matchingHistory history issue),
        successRate (matchingHistory history issue) a ≤ (7 : ℚ) / 10) →
      get_best_action history issue = issue.suggested_actions.head?)
  ∧ (∀ b, selectBest (matchingHistory history issue) = some b →
      successRate (matchingHistory history issue) b > (7 : ℚ) / 10 →
      ∃ act, RecoveryAction.fromValue b = some act
        ∧ get_best_action history issue = some act
        ∧ ∀ a ∈ candidateActions (matchingHistory history issue),
            successRate (matchingHistory history issue) a
              ≤ successRate (matchingHistory history issue) b)
  ∧ (∀ act, get_best_action history issue = some act →
      some act = issue.suggested_actions.head?
      ∨ (successRate (matchingHistory history issue) act.value > (7 : ℚ) / 10
          ∧ ∀ a ∈ candidateActions (matchingHistory history issue),
              successRate (matchingHistory history issue) a
                ≤ successRate (matchingHistory history issue) act.value)) := by
  have hunfold : get_best_action history issue =
      match selectBest (matchingHistory history issue) with
      | some a =>
          if successRate (matchingHistory history issue) a > (7 : ℚ) / 10 then
            match RecoveryAction.fromValue a with
            | some act => some act
            | none => issue.suggested_actions.head?
          else issue.suggested_actions.head?
      | none => issue.suggested_actions.head? := rfl
  refine ⟨?_, ?_, ?_⟩
  · intro hall
    cases hsel : selectBest (matchingHistory history issue) with
    | none => simp only [hunfold, hsel]
    | some b =>
        have hb := selectBest_mem hsel
        have hle := hall b hb
        simp only [hunfold, hsel]
        rw [if_neg (not_lt.mpr hle)]
  · intro b hsel hrate
    have hb := selectBest_mem hsel
    obtain ⟨e, hel, hea⟩ := mem_candidateActions.mp hb
    have hv : (RecoveryAction.fromValue b).isSome = true := by
      rw [← hea]
      exact hvalid e (List.mem_of_mem_filter hel)
    obtain ⟨act, hact⟩ := Option.isSome_iff_exists.mp hv
    refine ⟨act, hact, ?_, selectBest_max hsel⟩
    simp only [hunfold, hsel]
    rw [if_pos hrate, hact]
  · intro act hget
    rw [hunfold] at hget
    cases hsel : selectBest (matchingHistory history issue) with
    | none => simp only [hsel] at hget; left; exact hget.symm
    | some b =>
        simp only [hsel] at hget
        by_cases hrate : successRate (matchingHistory history issue) b > (7 : ℚ) / 10
        · rw [if_pos hrate] at hget
          cases hfv : RecoveryAction.fromValue b with
          | none => simp only [hfv] at hget; left; exact hget.symm
          | some a2 =>
              simp only [hfv, Option.some.injEq] at hget
              right
              rw [← hget]
              have hval : a2.value = b := RecoveryAction.value_of_fromValue hfv
              rw [hval]
              exact ⟨hrate, selectBest_max hsel⟩
        · rw [if_neg hrate] at hget
          left; exact hget.symm

/-- Witness for C1 at a concrete history and issue: a single fully
successful `reboot_server` row matching component `cpu` makes the second
branch fire. -/
theorem bestAction_threshold_spec_witness :
    (∀ e ∈ [HistoryEntry.mk "cpu-a" "reboot_server" true 1],
        (RecoveryAction.fromValue e.action).isSome = true)
    ∧ get_best_action [HistoryEntry.mk "cpu-a" "reboot_server" true 1]
        { issue_id := "x", severity := "critical", component := "cpu"
        , description := "", suggested_actions := [.process_kill] }
        = some RecoveryAction.reboot_server := by
  refine ⟨by decide, ?_⟩
  have h := (bestAction_threshold_spec
      [HistoryEntry.mk "cpu-a" "reboot_server" true 1]
      { issue_id := "x", severity := "critical", component := "cpu"
      , description := "", suggested_actions := [.process_kill] }
      (by decide)).2.1 "reboot_server" (by rfl) (by norm_num [successRate,
        successCount, attemptCount, matchingHistory, strContains, listInfix])
  obtain ⟨act, hfv, hget, _⟩ := h
  have : act = RecoveryAction.reboot_server := by
    have h2 : some RecoveryAction.reboot_server = some act := by
      rw [← hfv]; rfl
    injection h2 with h3
    exact h3.symm
  rw [← this]
  exact hget

/-- C2: recording two successes and one failure for the same action via
`record_recovery_result`, under issue ids the component filter matches,
makes the ranking query's success rate for that action exactly 2/3. -/
theorem record_roundtrip_success_rate (issue : Issue) (id1 id2 id3 : String)
    (d1 d2 d3 : ℚ)
    (h1 : strContains issue.component id1 = true)
    (h2 : strContains issue.component id2 = true)
    (h3 : strContains issue.component id3 = true) :
    successRate
        (matchingHistory
          (record_recovery_result
            (record_recovery_result
              (record_recovery_result [] id1 .restart_service true d1)
              id2 .restart_service true d2)
            id3 .restart_service false d3)
          issue)
        (RecoveryAction.restart_service).value = 2 / 3 := by
  simp only [record_recovery_result, matchingHistory, List.nil_append,
    List.cons_append, List.filter, h1, h2, h3]
  norm_num [successRate, successCount, attemptCount, RecoveryAction.value,
    List.filter]

/-- Witness for C2: concrete component `cpu` and ids containing it. -/
theorem record_roundtrip_success_rate_witness :
    (strContains "cpu" "cpu-1" = true ∧ strContains "cpu" "cpu-2" = true
      ∧ strContains "cpu" "cpu-3" = true)
    ∧ successRate
        (matchingHistory
          (record_recovery_result
            (record_recovery_result
              (record_recovery_result [] "cpu-1" .restart_service true ((5 : ℚ) / 2))
              "cpu-2" .restart_service true ((5 : ℚ) / 2))
            "cpu-3" .restart_service false ((5 : ℚ) / 2))
          { issue_id := "x", severity := "critical", component := "cpu"
          , description := "", suggested_actions := [] })
        (RecoveryAction.restart_service).value = 2 / 3 := by
  refine ⟨⟨by decide, by decide, by decide⟩, ?_⟩
  exact record_roundtrip_success_rate
    { issue_id := "x", severity := "critical", component := "cpu"
    , description := "", suggested_actions := [] }
    "cpu-1" "cpu-2" "cpu-3" _ _ _ (by decide) (by decide) (by decide)

/-- C3: the per-cycle status transition — empty issue list gives healthy,
any critical issue gives critical, any high issue (with no critical)
gives degraded, any other non-empty list (medium or low only) also gives
degraded, and an error counter above 5 forces offline over all of
these. -/
theorem update_status_transitions (m : HealthMetrics) (issues : List Issue) :
    (m.error_count > 5 → update_status m issues = ServerStatus.offline)
  ∧ (m.error_count ≤ 5 →
      ((issues = [] → update_status m issues = ServerStatus.healthy)
    ∧ ((∃ i ∈ issues, i.severity = "critical") →
          update_status m issues = ServerStatus.critical)
    ∧ (issues ≠ [] → (∀ i ∈ issues, i.severity ≠ "critical") →
          update_status m issues = ServerStatus.degraded))) := by
  constructor
  · intro h
    simp only [update_status]
    rw [if_pos h]
  · intro h5
    have hno : ¬ (m.error_count > 5) := by omega
    refine ⟨?_, ?_, ?_⟩
    · intro he
      subst he
      simp [update_status, hno]
    · intro hex
      have hne : issues ≠ [] := by
        obtain ⟨i, hi, _⟩ := hex
        exact List.ne_nil_of_mem hi
      have hany : issues.any (fun i => i.severity == "critical") = true := by
        simp only [List.any_eq_true, beq_iff_eq]
        exact hex
      simp [update_status, hno, hne, hany, List.isEmpty_eq_false.mpr hne]
    · intro hne hall
      have hany : issues.any (fun i => i.severity == "critical") = false := by
        simp only [List.any_eq_false, beq_iff_eq]
        exact hall
      simp only [update_status]
      rw [if_neg hno]
      rw [if_neg (by simp [List.isEmpty_eq_false.mpr hne])]
      rw [hany]
      simp only [Bool.false_eq_true, if_false]
      split <;> rfl

/-- Witness for C3: the offline override at error count 6, the healthy,
critical and medium-only-degraded scenarios at error count 0. -/
theorem update_status_transitions_witness :
    update_status { error_count := 6 } [] = ServerStatus.offline
  ∧ update_status {} [] = ServerStatus.healthy
  ∧ update_status {}
      [{ issue_id := "a", severity := "critical", component := "cpu"
       , description := "", suggested_actions := [] }] = ServerStatus.critical
  ∧ update_status {}
      [{ issue_id := "b", severity := "medium", component := "network"
       , description := "", suggested_actions := [] }] = ServerStatus.degraded := by
  refine ⟨?_, ?_, ?_, ?_⟩
  · exact (update_status_transitions { error_count := 6 } []).1 (by decide)
  · exact ((update_status_transitions {} []).2 (by decide)).1 rfl
  · exact ((update_status_transitions {} _).2 (by decide)).2.1
      ⟨_, List.mem_singleton.mpr rfl, rfl⟩
  · exact ((update_status_transitions {} _).2 (by decide)).2.2
      (by decide) (by decide)

theorem filter_map_eq_nil {α β : Type} (l : List α) (f : α → β) (p : β → Bool)
    (h : ∀ a ∈ l, p (f a) = false) : (l.map f).filter p = [] := by
  induction l with
  | nil => rfl
  | cons a as ih =>
      simp only [List.map_cons, List.filter_cons, h a (List.mem_cons_self a as)]
      exact ih fun x hx => h x (List.mem_cons_of_mem a hx)

theorem string_append_ne {a s t : String} (h : t.length < a.length) : a ++ s ≠ t := by
  intro he
  have hl := congrArg String.length he
  rw [String.length_append] at hl
  omega

theorem cpuIssues_filter_ne (th : Thresholds) (genId : String → String)
    (m : HealthMetrics) (c : String) (h : c ≠ "cpu") :
    (cpuIssues th genId m).filter (fun i => i.component == c) = [] := by
  have hb : ("cpu" == c) = false := beq_eq_false_iff_ne.mpr fun he => h he.symm
  unfold cpuIssues
  split
  · simp [List.filter_cons, hb]
  · split
    · simp [List.filter_cons, hb]
    · rfl

theorem memoryIssues_filter_ne (th : Thresholds) (genId : String → String)
    (m : HealthMetrics) (c : String) (h : c ≠ "memory") :
    (memoryIssues th genId m).filter (fun i => i.component == c) = [] := by
  have hb : ("memory" == c) = false := beq_eq_false_iff_ne.mpr fun he => h he.symm
  unfold memoryIssues
  split
  · simp [List.filter_cons, hb]
  · rfl

theorem diskIssues_filter_ne (th : Thresholds) (genId : String → String)
    (m : HealthMetrics) (c : String) (h : c ≠ "disk") :
    (diskIssues th genId m).filter (fun i => i.component == c) = [] := by
  have hb : ("disk" == c) = false := beq_eq_false_iff_ne.mpr fun he => h he.symm
  unfold diskIssues
  split
  · simp [List.filter_cons, hb]
  · rfl

theorem networkIssues_filter_ne (th : Thresholds) (genId : String → String)
    (m : HealthMetrics) (c : String) (h : c ≠ "network") :
    (networkIssues th genId m).filter (fun i => i.component == c) = [] := by
  have hb : ("network" == c) = false := beq_eq_false_iff_ne.mpr fun he => h he.symm
  unfold networkIssues
  split
  · simp [List.filter_cons, hb]
  · rfl

theorem serviceIssues_filter_short (genId : String → String) (m : HealthMetrics)
    (c : String) (hc : c.length < 8) :
    (serviceIssues genId m).filter (fun i => i.component == c) = [] := by
  apply filter_map_eq_nil
  intro p _
  simp only [serviceIssue]
  apply beq_eq_false_iff_ne.mpr
  exact string_append_ne (by
    have : ("service:" : String).length = 8 := rfl
    omega)

theorem containerIssues_filter_short (genId : String → String) (m : HealthMetrics)
    (c : String) (hc : c.length < 10) :
    (containerIssues genId m).filter (fun i => i.component == c) = [] := by
  apply filter_map_eq_nil
  intro p _
  simp only [containerIssue]
  apply beq_eq_false_iff_ne.mpr
  exact string_append_ne (by
    have : ("container:" : String).length = 10 := rfl
    omega)

theorem analyze_filter_cpu (th : Thresholds) (genId : String → String)
    (m : HealthMetrics) :
    (analyze_metrics th genId m).filter (fun i => i.component == "cpu")
      = cpuIssues th genId m := by
  unfold analyze_metrics
  simp only [List.filter_append]
  rw [memoryIssues_filter_ne th genId m _ (by decide),
      diskIssues_filter_ne th genId m _ (by decide),
      networkIssues_filter_ne th genId m _ (by decide),
      serviceIssues_filter_short genId m _ (by decide),
      containerIssues_filter_short genId m _ (by decide)]
  simp only [List.append_nil]
  unfold cpuIssues
  split
  · simp
  · split
    · simp
    · rfl

theorem analyze_filter_memory (th : Thresholds) (genId : String → String)
    (m : HealthMetrics) :
    (analyze_metrics th genId m).filter (fun i => i.component == "memory")
      = memoryIssues th genId m := by
  unfold analyze_metrics
  simp only [List.filter_append]
  rw [cpuIssues_filter_ne th genId m _ (by decide),
      diskIssues_filter_ne th genId m _ (by decide),
      networkIssues_filter_ne th genId m _ (by decide),
      serviceIssues_filter_short genId m _ (by decide),
      containerIssues_filter_short genId m _ (by decide)]
  simp only [List.append_nil, List.nil_append]
  unfold memoryIssues
  split
  · simp
  · rfl

theorem analyze_filter_disk (th : Thresholds) (genId : String → String)
    (m : HealthMetrics) :
    (analyze_metrics th genId m).filter (fun i => i.component == "disk")
      = diskIssues th genId m := by
  unfold analyze_metrics
  simp only [List.filter_append]
  rw [cpuIssues_filter_ne th genId m _ (by decide),
      memoryIssues_filter_ne th genId m _ (by decide),
      networkIssues_filter_ne th genId m _ (by decide),
      serviceIssues_filter_short genId m _ (by decide),
      containerIssues_filter_short genId m _ (by decide)]
  simp only [List.append_nil, List.nil_append]
  unfold diskIssues
  split
  · simp
  · rfl

/-- C4: above the cpu-critical threshold, the diagnostic pass emits
exactly one cpu-component issue, of critical severity, with the
candidate actions in the order kill-process, restart-service,
reboot-host — and no second warning-tier cpu issue. -/
theorem analyze_cpu_critical_unique (th : Thresholds) (genId : String → String)
    (m : HealthMetrics) (h : m.cpu_usage > th.cpu_critical) :
    ((analyze_metrics th genId m).filter (fun i => i.component == "cpu")).map
        (fun i => (i.severity, i.suggested_actions))
      = [("critical",
          [RecoveryAction.process_kill, RecoveryAction.restart_service,
           RecoveryAction.reboot_server])] := by
  rw [analyze_filter_cpu]
  unfold cpuIssues
  rw [if_pos h]
  rfl

/-- Witness for C4: the spec scenario snapshot with cpu at 95 against
the default thresholds. -/
theorem analyze_cpu_critical_unique_witness :
    ((95 : ℚ) > ({} : Thresholds).cpu_critical)
    ∧ ((analyze_metrics {} (fun s => s)
          { cpu_usage := 95, memory_usage := 50, disk_usage := 50
          , network_latency := 10 }).filter
            (fun i => i.component == "cpu")).map
          (fun i => (i.severity, i.suggested_actions))
        = [("critical",
            [RecoveryAction.process_kill, RecoveryAction.restart_service,
             RecoveryAction.reboot_server])] :=
  ⟨by norm_num [Thresholds.cpu_critical],
   analyze_cpu_critical_unique {} (fun s => s)
     { cpu_usage := 95, memory_usage := 50, disk_usage := 50
     , network_latency := 10 }
     (by norm_num [Thresholds.cpu_critical])⟩

/-- C10: the memory and disk checks have no warning tier — a memory
(resp. disk) issue exists exactly when usage strictly exceeds the
critical threshold, and the warning thresholds play no role; the cpu
check alone also fires between its warning and critical thresholds. -/
theorem analyze_memory_disk_critical_only (th : Thresholds)
    (genId : String → String) (m : HealthMetrics) :
    (((analyze_metrics th genId m).filter (fun i => i.component == "memory")).length
        = if m.memory_usage > th.memory_critical then 1 else 0)
  ∧ (((analyze_metrics th genId m).filter (fun i => i.component == "disk")).length
        = if m.disk_usage > th.disk_critical then 1 else 0)
  ∧ (((analyze_metrics th genId m).filter (fun i => i.component == "cpu")).length
        = if m.cpu_usage > th.cpu_critical then 1
          else if m.cpu_usage > th.cpu_warning then 1 else 0) := by
  refine ⟨?_, ?_, ?_⟩
  · rw [analyze_filter_memory]
    unfold memoryIssues
    split <;> simp
  · rw [analyze_filter_disk]
    unfold diskIssues
    split <;> simp
  · rw [analyze_filter_cpu]
    unfold cpuIssues
    split
    · simp
    · split <;> simp

theorem handleIssues_gated (cfg : MonitorConfig) (exec : ExecOracle) (now t : ℤ)
    (st : MonitorState) (issues : List Issue)
    (hlast : st.last_recovery_time = some t)
    (hcond : (now - t) % 86400 < cfg.recovery_cooldown) :
    handle_issues cfg exec now st issues = (st, []) := by
  unfold handle_issues
  rw [hlast]
  simp only [hcond, if_true]

/-- C5: a cycle arriving while the cooldown window since the last
recovery phase is still open performs zero executor calls, records no
outcome and leaves the recovery stamp untouched, whatever issues (of
whatever severity) the diagnostic pass produced. -/
theorem cooldown_blocks_recovery (cfg : MonitorConfig) (inp : CycleInput)
    (st : MonitorState) (t : ℤ)
    (hlast : st.last_recovery_time = some t)
    (h0 : 0 ≤ inp.now - t) (hlt : inp.now - t < cfg.recovery_cooldown) :
    (monitor_cycle cfg inp st).2 = []
  ∧ (monitor_cycle cfg inp st).1.history = st.history
  ∧ (monitor_cycle cfg inp st).1.last_recovery_time = st.last_recovery_time := by
  have hm : (inp.now - t) % 86400 < cfg.recovery_cooldown := by omega
  unfold monitor_cycle
  dsimp only
  generalize analyze_metrics cfg.thresholds inp.genId inp.metrics = issues
  split
  · rw [handleIssues_gated cfg inp.exec inp.now t
      ⟨update_status inp.metrics issues, st.recovery_in_progress, st.last_recovery_time,
        st.history, learn_from_patterns st.patterns issues inp.metrics⟩ issues hlast hm]
    exact ⟨rfl, rfl, rfl⟩
  · exact ⟨rfl, rfl, rfl⟩

/-- Witness for C5: last recovery 100 seconds ago against the default
300-second cooldown, with a critical cpu snapshot pending. -/
theorem cooldown_blocks_recovery_witness :
    ((0 : ℤ) ≤ 1100 - 1000 ∧ (1100 : ℤ) - 1000 < ({} : MonitorConfig).recovery_cooldown)
    ∧ ((monitor_cycle {}
          { now := 1100, metrics := { cpu_usage := 95 }, genId := fun s => s
          , exec := fun _ _ => (true, "ok") }
          { current_status := ServerStatus.healthy, recovery_in_progress := false
          , last_recovery_time := some 1000, history := [], patterns := [] }).2 = []
      ∧ (monitor_cycle {}
          { now := 1100, metrics := { cpu_usage := 95 }, genId := fun s => s
          , exec := fun _ _ => (true, "ok") }
          { current_status := ServerStatus.healthy, recovery_in_progress := false
          , last_recovery_time := some 1000, history := [], patterns := [] }).1.history = []
      ∧ (monitor_cycle {}
          { now := 1100, metrics := { cpu_usage := 95 }, genId := fun s => s
          , exec := fun _ _ => (true, "ok") }
          { current_status := ServerStatus.healthy, recovery_in_progress := false
          , last_recovery_time := some 1000, history := [], patterns := [] }).1.last_recovery_time
          = some 1000) := by
  refine ⟨⟨by decide, by decide⟩, ?_⟩
  exact cooldown_blocks_recovery {}
    { now := 1100, metrics := { cpu_usage := 95 }, genId := fun s => s
    , exec := fun _ _ => (true, "ok") }
    { current_status := ServerStatus.healthy, recovery_in_progress := false
    , last_recovery_time := some 1000, history := [], patterns := [] }
    1000 rfl (by decide) (by decide)

/-- C9: the cooldown gate compares `timedelta.seconds` — the sub-day
component, `elapsed % 86400` — rather than the total elapsed time: one
day plus one second after the last recovery phase, an elapsed time
strictly greater than any sub-day cooldown, a cycle with pending issues
still performs zero executor calls. -/
theorem cooldown_seconds_wraparound (cfg : MonitorConfig) (exec : ExecOracle)
    (t : ℤ) (st : MonitorState) (issues : List Issue)
    (hlast : st.last_recovery_time = some t)
    (h1 : 1 < cfg.recovery_cooldown) (h2 : cfg.recovery_cooldown ≤ 86400) :
    cfg.recovery_cooldown < (t + 86401) - t
  ∧ handle_issues cfg exec (t + 86401) st issues = (st, []) := by
  constructor
  · omega
  · apply handleIssues_gated cfg exec (t + 86401) t st issues hlast
    have he : (t + 86401 - t) % 86400 = 1 := by omega
    omega

/-- Witness for C9: default 300-second cooldown, last recovery at time 0,
a critical issue pending 86401 seconds later. -/
theorem cooldown_seconds_wraparound_witness :
    ((1 : ℤ) < ({} : MonitorConfig).recovery_cooldown
      ∧ ({} : MonitorConfig).recovery_cooldown ≤ 86400)
    ∧ (({} : MonitorConfig).recovery_cooldown < ((0 : ℤ) + 86401) - 0
      ∧ handle_issues {} (fun _ _ => (true, "ok")) ((0 : ℤ) + 86401)
          { current_status := ServerStatus.critical, recovery_in_progress := false
          , last_recovery_time := some 0, history := [], patterns := [] }
          [{ issue_id := "a", severity := "critical", component := "cpu"
           , description := "", suggested_actions := [.process_kill] }]
          = ({ current_status := ServerStatus.critical, recovery_in_progress := false
             , last_recovery_time := some 0, history := [], patterns := [] }, [])) := by
  refine ⟨⟨by decide, by decide⟩, ?_⟩
  exact cooldown_seconds_wraparound {} (fun _ _ => (true, "ok")) 0
    { current_status := ServerStatus.critical, recovery_in_progress := false
    , last_recovery_time := some 0, history := [], patterns := [] }
    [{ issue_id := "a", severity := "critical", component := "cpu"
     , description := "", suggested_actions := [.process_kill] }]
    rfl (by decide) (by decide)

theorem handle_issues_flag (cfg : MonitorConfig) (exec : ExecOracle) (now : ℤ)
    (st : MonitorState) (issues : List Issue)
    (h : st.recovery_in_progress = false) :
    (handle_issues cfg exec now st issues).1.recovery_in_progress = false := by
  unfold handle_issues runRecoveryPhase
  split
  · split
    · exact h
    · rfl
  · rfl

theorem monitor_cycle_flag (cfg : MonitorConfig) (inp : CycleInput)
    (st : MonitorState) (h : st.recovery_in_progress = false) :
    (monitor_cycle cfg inp st).1.recovery_in_progress = false := by
  unfold monitor_cycle
  dsimp only
  split
  · exact handle_issues_flag _ _ _ _ _ h
  · exact h

theorem foldl_cycle_flag (cfg : MonitorConfig) :
    ∀ (inputs : List CycleInput) (st : MonitorState),
      st.recovery_in_progress = false →
      (inputs.foldl (fun st inp => (monitor_cycle cfg inp st).1) st).recovery_in_progress
        = false := by
  intro inputs
  induction inputs with
  | nil => intro st h; exact h
  | cons inp rest ih =>
      intro st h
      exact ih _ (monitor_cycle_flag cfg inp st h)

/-- C6: single-in-flight — a cycle entered with the recovery-in-flight
flag already set performs zero executor calls (the dispatch guard
`not recovery_in_progress` blocks the phase), and along every run of the
loop from the initial state the flag is false again at every cycle
boundary, the phase having set it on entry and cleared it on exit; hence
at most one recovery dispatch phase is ever in flight. -/
theorem single_in_flight_invariant :
    (∀ (cfg : MonitorConfig) (inp : CycleInput) (st : MonitorState),
        st.recovery_in_progress = true → (monitor_cycle cfg inp st).2 = [])
  ∧ (∀ (cfg : MonitorConfig) (history : List HistoryEntry)
        (patterns : List (PatternKey × ℕ)) (inputs : List CycleInput),
        (runMonitor cfg history patterns inputs).recovery_in_progress = false) := by
  constructor
  · intro cfg inp st h
    unfold monitor_cycle
    dsimp only
    split
    case isTrue hguard =>
      rw [h] at hguard
      simp at hguard
    case isFalse => rfl
  · intro cfg history patterns inputs
    unfold runMonitor
    exact foldl_cycle_flag cfg inputs _ rfl

/-- Witness for C6: a concrete in-flight state yields an empty executor
trace, and a concrete two-cycle run ends with the flag clear. -/
theorem single_in_flight_invariant_witness :
    (monitor_cycle {}
        { now := 0, metrics := { cpu_usage := 95 }, genId := fun s => s
        , exec := fun _ _ => (true, "ok") }
        { current_status := ServerStatus.recovering, recovery_in_progress := true
        , last_recovery_time := none, history := [], patterns := [] }).2 = []
  ∧ (runMonitor {} [] []
      [{ now := 0, metrics := { cpu_usage := 95 }, genId := fun s => s
       , exec := fun _ _ => (true, "ok") },
       { now := 30, metrics := {}, genId := fun s => s
       , exec := fun _ _ => (true, "ok") }]).recovery_in_progress = false := by
  constructor
  · exact single_in_flight_invariant.1 {}
      { now := 0, metrics := { cpu_usage := 95 }, genId := fun s => s
      , exec := fun _ _ => (true, "ok") }
      { current_status := ServerStatus.recovering, recovery_in_progress := true
      , last_recovery_time := none, history := [], patterns := [] } rfl
  · exact single_in_flight_invariant.2 {} [] [] _

/-- C7: the executor is total in its result — the undispatched action
(`manual_intervention`, the final else branch) returns failure with an
explanatory message without consulting any handler (the result is
independent of the handler oracle, hence no remote command is issued),
and an exception raised by a handler or its transport is caught and
returned as a `(false, error-text)` pair; no exception crosses the
executor boundary. -/
theorem execute_action_totalizes_failure :
    (∀ (h h2 : HandlerOracle) (ctx : List (String × String)),
        execute_action h RecoveryAction.manual_intervention ctx
            = (false, "Unknown action: manual_intervention")
        ∧ execute_action h RecoveryAction.manual_intervention ctx
            = execute_action h2 RecoveryAction.manual_intervention ctx)
  ∧ (∀ (h : HandlerOracle) (a : RecoveryAction) (ctx : List (String × String))
        (e : String),
        dispatch h a ctx = some (Except.error e) →
        execute_action h a ctx = (false, e)) := by
  constructor
  · intro h h2 ctx
    exact ⟨rfl, rfl⟩
  · intro h a ctx e hd
    unfold execute_action
    rw [hd]

/-- Witness for C7: a handler oracle whose clear-cache body raises is
converted to a failure result, and manual intervention fails with the
fixed message. -/
theorem execute_action_totalizes_failure_witness :
    (dispatch
        { restartService := fun _ => Except.ok (true, "ok")
        , restartContainer := fun _ => Except.ok (true, "ok")
        , rebootServer := Except.ok (true, "ok")
        , clearCache := Except.error "boom"
        , diskCleanup := Except.ok (true, "ok")
        , networkReset := Except.ok (true, "ok")
        , killHighCpuProcesses := Except.ok (true, "ok")
        , repairConfig := fun _ => Except.ok (true, "ok") }
        RecoveryAction.clear_cache [] = some (Except.error "boom"))
    ∧ execute_action
        { restartService := fun _ => Except.ok (true, "ok")
        , restartContainer := fun _ => Except.ok (true, "ok")
        , rebootServer := Except.ok (true, "ok")
        , clearCache := Except.error "boom"
        , diskCleanup := Except.ok (true, "ok")
        , networkReset := Except.ok (true, "ok")
        , killHighCpuProcesses := Except.ok (true, "ok")
        , repairConfig := fun _ => Except.ok (true, "ok") }
        RecoveryAction.clear_cache [] = (false, "boom")
    ∧ execute_action
        { restartService := fun _ => Except.ok (true, "ok")
        , restartContainer := fun _ => Except.ok (true, "ok")
        , rebootServer := Except.ok (true, "ok")
        , clearCache := Except.error "boom"
        , diskCleanup := Except.ok (true, "ok")
        , networkReset := Except.ok (true, "ok")
        , killHighCpuProcesses := Except.ok (true, "ok")
        , repairConfig := fun _ => Except.ok (true, "ok") }
        RecoveryAction.manual_intervention []
        = (false, "Unknown action: manual_intervention") := by
  refine ⟨rfl, ?_, ?_⟩
  · exact execute_action_totalizes_failure.2 _ RecoveryAction.clear_cache [] "boom" rfl
  · exact (execute_action_totalizes_failure.1
      { restartService := fun _ => Except.ok (true, "ok")
        , restartContainer := fun _ => Except.ok (true, "ok")
        , rebootServer := Except.ok (true, "ok")
        , clearCache := Except.error "boom"
        , diskCleanup := Except.ok (true, "ok")
        , networkReset := Except.ok (true, "ok")
        , killHighCpuProcesses := Except.ok (true, "ok")
        , repairConfig := fun _ => Except.ok (true, "ok") }
      { restartService := fun _ => Except.ok (true, "ok")
        , restartContainer := fun _ => Except.ok (true, "ok")
        , rebootServer := Except.ok (true, "ok")
        , clearCache := Except.error "boom"
        , diskCleanup := Except.ok (true, "ok")
        , networkReset := Except.ok (true, "ok")
        , killHighCpuProcesses := Except.ok (true, "ok")
        , repairConfig := fun _ => Except.ok (true, "ok") } []).1

theorem lookup_upsertPattern_self (store : List (PatternKey × ℕ)) (k : PatternKey) :
    (upsertPattern store k).lookup k = some ((store.lookup k).getD 0 + 1) := by
  induction store with
  | nil => simp [upsertPattern, List.lookup]
  | cons p rest ih =>
      obtain ⟨k2, n⟩ := p
      by_cases h : k2 = k
      · subst h
        simp [upsertPattern, List.lookup]
      · simp only [upsertPattern, if_neg h]
        have hb : (k == k2) = false := beq_eq_false_iff_ne.mpr fun he => h he.symm
        simp [List.lookup, hb, ih]

theorem lookup_upsertPattern_ne (store : List (PatternKey × ℕ)) (k k2 : PatternKey)
    (h : k2 ≠ k) : (upsertPattern store k).lookup k2 = store.lookup k2 := by
  have hb : (k2 == k) = false := beq_eq_false_iff_ne.mpr h
  induction store with
  | nil => simp [upsertPattern, List.lookup, hb]
  | cons p rest ih =>
      obtain ⟨k1, n⟩ := p
      by_cases h1 : k1 = k
      · subst h1
        simp [upsertPattern, List.lookup, hb]
      · simp only [upsertPattern, if_neg h1]
        cases hbk : (k2 == k1) with
        | true => simp [List.lookup, hbk]
        | false => simp [List.lookup, hbk, ih]

/-- Counterexample for C8: the pattern hash is not computed from each
numeric metric of the snapshot — two snapshots identical in cpu, memory
and disk but in different network-latency buckets (and different
uptimes) produce the same pattern key, so the upsert counts them under
one hash. -/
theorem hash_pattern_ignores_latency :
    hash_pattern
        { issue_id := "a", severity := "medium", component := "network"
        , description := "", suggested_actions := [] }
        { cpu_usage := 50, memory_usage := 50, disk_usage := 50
        , network_latency := 10, uptime_seconds := 5 }
      = hash_pattern
        { issue_id := "a", severity := "medium", component := "network"
        , description := "", suggested_actions := [] }
        { cpu_usage := 50, memory_usage := 50, disk_usage := 50
        , network_latency := 5000, uptime_seconds := 999 }
  ∧ (10 : ℚ) ≠ 5000
  ∧ bucket10 (10 : ℚ) ≠ bucket10 (5000 : ℚ) := by
  refine ⟨rfl, by norm_num, ?_⟩
  have e1 : bucket10 (10 : ℚ) = 10 := by
    norm_num [bucket10, pyTrunc]
  have e2 : bucket10 (5000 : ℚ) = 5000 := by
    norm_num [bucket10, pyTrunc]
  rw [e1, e2]
  norm_num

/-- C8 (amended): `_learn_from_patterns` computes, for every issue of the
pass, a pattern key from the issue's component, its severity, and the
snapshot's cpu, memory and disk percentages each truncated to its
10-unit bucket (network latency and uptime are not part of the key), and
upserts an occurrence counter keyed by that hash — incrementing the
counter of an existing hash, starting at 1 otherwise, and leaving every
other key's counter unchanged. -/
theorem learn_from_patterns_upsert :
    (∀ (store : List (PatternKey × ℕ)) (issues : List Issue) (m : HealthMetrics),
        learn_from_patterns store issues m
          = issues.foldl (fun s i => upsertPattern s (hash_pattern i m)) store)
  ∧ (∀ (issue : Issue) (m : HealthMetrics),
        hash_pattern issue m
          = { component := issue.component, severity := issue.severity
            , cpu_range := bucket10 m.cpu_usage
            , memory_range := bucket10 m.memory_usage
            , disk_range := bucket10 m.disk_usage })
  ∧ (∀ (store : List (PatternKey × ℕ)) (issue : Issue) (m : HealthMetrics),
        patternCount (learn_from_patterns store [issue] m) (hash_pattern issue m)
          = some ((patternCount store (hash_pattern issue m)).getD 0 + 1))
  ∧ (∀ (store : List (PatternKey × ℕ)) (issue : Issue) (m : HealthMetrics)
        (k : PatternKey), k ≠ hash_pattern issue m →
        patternCount (learn_from_patterns store [issue] m) k
          = patternCount store k) := by
  refine ⟨fun _ _ _ => rfl, fun _ _ => rfl, ?_, ?_⟩
  · intro store issue m
    exact lookup_upsertPattern_self store (hash_pattern issue m)
  · intro store issue m k hk
    exact lookup_upsertPattern_ne store (hash_pattern issue m) k hk

/-- Witness for C8 (amended): a fresh key starts at 1, a repeated upsert
reaches 2, and an unrelated key is untouched. -/
theorem learn_from_patterns_upsert_witness :
    patternCount
        (learn_from_patterns []
          [{ issue_id := "a", severity := "critical", component := "cpu"
           , description := "", suggested_actions := [] }]
          { cpu_usage := 95 })
        (hash_pattern
          { issue_id := "a", severity := "critical", component := "cpu"
          , description := "", suggested_actions := [] }
          { cpu_usage := 95 })
      = some 1
  ∧ patternCount
        (learn_from_patterns
          (learn_from_patterns []
            [{ issue_id := "a", severity := "critical", component := "cpu"
             , description := "", suggested_actions := [] }]
            { cpu_usage := 95 })
          [{ issue_id := "b", severity := "critical", component := "cpu"
           , description := "", suggested_actions := [] }]
          { cpu_usage := 95 })
        (hash_pattern
          { issue_id := "b", severity := "critical", component := "cpu"
          , description := "", suggested_actions := [] }
          { cpu_usage := 95 })
      = some 2
  ∧ (PatternKey.mk "memory" "critical" 0 0 0
        ≠ hash_pattern
            { issue_id := "a", severity := "critical", component := "cpu"
            , description := "", suggested_actions := [] }
            { cpu_usage := 95 }
      ∧ patternCount
          (learn_from_patterns []
            [{ issue_id := "a", severity := "critical", component := "cpu"
             , description := "", suggested_actions := [] }]
            { cpu_usage := 95 })
          (PatternKey.mk "memory" "critical" 0 0 0) = none) := by
  have hne : PatternKey.mk "memory" "critical" 0 0 0
      ≠ hash_pattern
          { issue_id := "a", severity := "critical", component := "cpu"
          , description := "", suggested_actions := [] }
          { cpu_usage := 95 } := by
    simp [hash_pattern, PatternKey.mk.injEq]
  refine ⟨?_, ?_, hne, ?_⟩
  · have h := learn_from_patterns_upsert.2.2.1 []
      { issue_id := "a", severity := "critical", component := "cpu"
      , description := "", suggested_actions := [] }
      { cpu_usage := 95 }
    simpa [patternCount] using h
  · have h := learn_from_patterns_upsert.2.2.1
      (learn_from_patterns []
        [{ issue_id := "a", severity := "critical", component := "cpu"
         , description := "", suggested_actions := [] }]
        { cpu_usage := 95 })
      { issue_id := "b", severity := "critical", component := "cpu"
      , description := "", suggested_actions := [] }
      { cpu_usage := 95 }
    rw [h]
    have h1 : patternCount
        (learn_from_patterns []
          [{ issue_id := "a", severity := "critical", component := "cpu"
           , description := "", suggested_actions := [] }]
          { cpu_usage := 95 })
        (hash_pattern
          { issue_id := "b", severity := "critical", component := "cpu"
          , description := "", suggested_actions := [] }
          { cpu_usage := 95 }) = some 1 := by
      simp [patternCount, learn_from_patterns, upsertPattern, hash_pattern, List.lookup]
    rw [h1]
    rfl
  · have h := learn_from_patterns_upsert.2.2.2 []
      { issue_id := "a", severity := "critical", component := "cpu"
      , description := "", suggested_actions := [] }
      { cpu_usage := 95 }
      (PatternKey.mk "memory" "critical" 0 0 0) hne
    rw [h]
    rfl

end MiniCloud
